import Mathlib

/-!
Shallow embedding of the neighborgrid crate (dense 2-D grid container with
configurable coordinate origins, axis inversion, toroidal wrap, neighbor
resolution and nrant partitioning), together with proofs about its
coordinate-addressing, neighbor, partition, iterator and construction code.

Conventions of the embedding:
* usize is modelled as Nat, isize as Int (casts are exact for in-range data).
* Result<usize, GridError> is modelled as Except GridError Nat.
* The authoritative Grid struct (grid.rs) stores options directly, so
  invert_y reads the inverted_y flag without an Option indirection.
* Vec<T> is modelled as List.
-/

namespace Neighborgrid

inductive Origin where
  | UpperLeft
  | UpperRight
  | Center
  | LowerLeft
  | LowerRight
deriving DecidableEq, Repr

structure GridOptions where
  origin : Origin
  inverted_y : Bool
  neighbor_ybased : Bool
  wrap_x : Bool
  wrap_y : Bool
deriving DecidableEq, Repr

/-- Default GridOptions: UpperLeft origin, inverted_y = true,
neighbor_ybased = NEIGHBOR_Y_BASED = true, wrap flags = DEFAULT_WRAP = false. -/
def GridOptions.default : GridOptions :=
  { origin := Origin.UpperLeft
    inverted_y := true
    neighbor_ybased := true
    wrap_x := false
    wrap_y := false }

structure Grid (α : Type) where
  items : List α
  rows : Nat
  cols : Nat
  options : GridOptions
deriving DecidableEq, Repr

inductive GridError where
  | IndexOutOfBounds
  | RowSizeMismatch
  | InvalidSize
  | ExcessiveSize
  | InvalidDivisionSize
deriving DecidableEq, Repr

deriving instance DecidableEq for Except

/-- Grid::size — the number of cells, items.len(). -/
def Grid.size (g : Grid α) : Nat := g.items.length

/-- Grid::origin — the configured origin. -/
def Grid.origin (g : Grid α) : Origin := g.options.origin

/-- index.rs invert_y: negate y when inverted_y is configured. -/
def invertY (g : Grid α) (y : Int) : Int :=
  if g.options.inverted_y then -y else y

/-- index.rs bounds_check: origin-specific sign/range conditions plus the
absolute-value limits abs x < cols and abs y < rows. -/
def boundsCheck (g : Grid α) (x y : Int) : Bool :=
  let maxlimit := decide (x.natAbs < g.cols) && decide (y.natAbs < g.rows)
  let specific :=
    match g.origin with
    | Origin.UpperLeft => decide (0 ≤ x) && decide (y ≤ 0)
    | Origin.UpperRight => decide (x ≤ 0) && decide (y ≤ 0)
    | Origin.LowerLeft => decide (0 ≤ x) && decide (0 ≤ y)
    | Origin.LowerRight => decide (x ≤ 0) && decide (0 ≤ y)
    | Origin.Center =>
      let x_offset := g.cols / 2 + 1
      let y_offset := g.rows / 2 + 1
      decide (x.natAbs < x_offset) && decide (y.natAbs < y_offset)
  specific && maxlimit

/-- index.rs convert_center. -/
def convertCenter (g : Grid α) (x y : Int) : Int × Int :=
  let x_offset := g.cols / 2
  let y_offset := g.rows / 2
  (x + (x_offset : Int), -y + (y_offset : Int))

/-- index.rs convert_upper_left. -/
def convertUpperLeft (x y : Int) : Int × Int :=
  (x, -y)

/-- index.rs convert_upper_right. -/
def convertUpperRight (g : Grid α) (x y : Int) : Int × Int :=
  (x + ((g.cols - 1 : Nat) : Int), -y)

/-- index.rs convert_lower_left. -/
def convertLowerLeft (g : Grid α) (x y : Int) : Int × Int :=
  (x, ((g.rows - 1 : Nat) : Int) - y)

/-- index.rs convert_lower_right. -/
def convertLowerRight (g : Grid α) (x y : Int) : Int × Int :=
  (((g.cols - 1 : Nat) : Int) + x, ((g.rows - 1 : Nat) : Int) - y)

/-- index.rs adjust_from_origin: logical coordinates to canonical upper-left
row/col coordinates. -/
def adjustFromOrigin (g : Grid α) (x y : Int) : Int × Int :=
  match g.origin with
  | Origin.UpperLeft => convertUpperLeft x y
  | Origin.UpperRight => convertUpperRight g x y
  | Origin.Center => convertCenter g x y
  | Origin.LowerLeft => convertLowerLeft g x y
  | Origin.LowerRight => convertLowerRight g x y

/-- index.rs adjust_to_origin: canonical coordinates back to logical ones. -/
def adjustToOrigin (g : Grid α) (x y : Int) : Int × Int :=
  match g.origin with
  | Origin.UpperLeft => convertUpperLeft x y
  | Origin.UpperRight =>
    let p := convertUpperRight g (-x) y
    (-p.1, p.2)
  | Origin.Center =>
    let p := convertCenter g (-x) y
    (-p.1, p.2)
  | Origin.LowerLeft => convertLowerLeft g x y
  | Origin.LowerRight =>
    let p := convertLowerRight g (-x) y
    (-p.1, p.2)

/-- index.rs xy_to_index: canonical y * cols + canonical x (both cast to
usize; they are nonnegative whenever bounds_check passed). -/
def xyToIndex (g : Grid α) (x y : Int) : Nat :=
  let p := adjustFromOrigin g x y
  p.2.toNat * g.cols + p.1.toNat

/-- Index::grid_index for (isize, isize). -/
def gridIndexPair (g : Grid α) (p : Int × Int) : Except GridError Nat :=
  let y := invertY g p.2
  if boundsCheck g p.1 y then Except.ok (xyToIndex g p.1 y)
  else Except.error GridError.IndexOutOfBounds

/-- Index::output for (isize, isize). -/
def outputPair (g : Grid α) (index : Nat) : Int × Int :=
  let x : Int := (index % g.cols : Nat)
  let y : Int := (index / g.cols : Nat)
  let p := adjustToOrigin g x y
  (p.1, invertY g p.2)

/-- Index::grid_index for usize. -/
def gridIndexNat (g : Grid α) (n : Nat) : Except GridError Nat :=
  if n < g.size then Except.ok n else Except.error GridError.IndexOutOfBounds

/-- The named Coordinates record. -/
structure Coordinates where
  x : Int
  y : Int
deriving DecidableEq, Repr

/-- Index::grid_index for Coordinates. -/
def gridIndexCoordinates (g : Grid α) (c : Coordinates) : Except GridError Nat :=
  let y := invertY g c.y
  if boundsCheck g c.x y then Except.ok (xyToIndex g c.x y)
  else Except.error GridError.IndexOutOfBounds

/-- Grid::get for a usize index (storage access items[index] modelled with
the safe list lookup; all verified call sites are in range). -/
def Grid.getNat (g : Grid α) (n : Nat) : Option α :=
  match gridIndexNat g n with
  | Except.ok index => g.items[index]?
  | Except.error _ => none

/-- Grid::get for an (isize, isize) index. -/
def Grid.getPair (g : Grid α) (p : Int × Int) : Option α :=
  match gridIndexPair g p with
  | Except.ok index => g.items[index]?
  | Except.error _ => none

/-- grid.rs actual_down_ind: raw one-row-down step with optional y wrap. -/
def actualDownInd (g : Grid α) (index : Nat) : Except GridError Nat :=
  let res := index + g.cols
  if res < g.size then Except.ok res
  else if g.options.wrap_y then Except.ok (res - g.size)
  else Except.error GridError.IndexOutOfBounds

/-- grid.rs actual_up_ind: raw one-row-up step (checked_sub) with optional
y wrap. -/
def actualUpInd (g : Grid α) (index : Nat) : Except GridError Nat :=
  match (if g.cols ≤ index then some (index - g.cols) else none) with
  | some v => Except.ok v
  | none =>
    if g.options.wrap_y then Except.ok (index + g.size - g.cols)
    else Except.error GridError.IndexOutOfBounds

/-- grid.rs up_idx for an (isize, isize) index: swaps to the raw down step
when inverted_y and neighbor_ybased are both set (the ? operator on the
resolution is the explicit error match). -/
def upIdxPair (g : Grid α) (p : Int × Int) : Except GridError Nat :=
  match gridIndexPair g p with
  | Except.error e => Except.error e
  | Except.ok index =>
    if g.options.inverted_y && g.options.neighbor_ybased then actualDownInd g index
    else actualUpInd g index

/-- grid.rs down_idx for an (isize, isize) index. -/
def downIdxPair (g : Grid α) (p : Int × Int) : Except GridError Nat :=
  match gridIndexPair g p with
  | Except.error e => Except.error e
  | Except.ok index =>
    if g.options.inverted_y && g.options.neighbor_ybased then actualUpInd g index
    else actualDownInd g index

/-- grid.rs left_idx for a usize index. -/
def leftIdxNat (g : Grid α) (n : Nat) : Except GridError Nat :=
  match gridIndexNat g n with
  | Except.error e => Except.error e
  | Except.ok index =>
    if index == 0 || index % g.cols == 0 then
      if g.options.wrap_x then Except.ok (index + g.cols - 1)
      else Except.error GridError.IndexOutOfBounds
    else Except.ok (index - 1)

/-- grid.rs right_idx for a usize index. -/
def rightIdxNat (g : Grid α) (n : Nat) : Except GridError Nat :=
  match gridIndexNat g n with
  | Except.error e => Except.error e
  | Except.ok index0 =>
    let index := index0 + 1
    if index == g.size || index % g.cols == 0 then
      if g.options.wrap_x then Except.ok (index - g.cols)
      else Except.error GridError.IndexOutOfBounds
    else Except.ok index

/-- Grid::get_up for an (isize, isize) index. -/
def Grid.getUpPair (g : Grid α) (p : Int × Int) : Option α :=
  match upIdxPair g p with
  | Except.ok idx => g.items[idx]?
  | Except.error _ => none

/-- Grid::get_down for an (isize, isize) index. -/
def Grid.getDownPair (g : Grid α) (p : Int × Int) : Option α :=
  match downIdxPair g p with
  | Except.ok idx => g.items[idx]?
  | Except.error _ => none

/-- grid.rs ceiling: ceiling division (a + b - 1) / b. -/
def ceiling (a b : Nat) : Nat := (a + b - 1) / b

/-- Grid::nrant for a usize index: validates the divisor, resolves the
index and computes the region id with ceiling-sized blocks. -/
def nrantNat (g : Grid α) (n divisor : Nat) : Except GridError Nat :=
  if divisor < 1 || divisor > max g.rows g.cols then
    Except.error GridError.InvalidDivisionSize
  else do
    let index ← gridIndexNat g n
    let rheight := ceiling g.rows divisor
    let rwidth := ceiling g.cols divisor
    Except.ok (index / g.cols / rheight * divisor + (index % g.cols) / rwidth)

/-- Grid::nrant_start: the flat offset of the first cell of the region that
the given index belongs to. In the source a failed nrant panics (the method
is only called with validated indices); the error branch here is
unreachable in every verified use. -/
def nrantStart (g : Grid α) (index divisor : Nat) : Nat :=
  match nrantNat g index divisor with
  | Except.error _ => 0
  | Except.ok nrant =>
    let x_rants := nrant % divisor
    let y_rants := nrant / divisor
    let x_offset := x_rants * ceiling g.cols divisor
    let y_offset := g.rows / divisor * y_rants
    y_offset * g.cols + x_offset

/-- quaditers.rs NrantIterator: the full sequence of yielded items, in
order. Each slot of the rwidth × rheight window is either an explicit
absent marker (ragged right edge) or the cell produced by Grid::get. -/
def nrantIterSlots (g : Grid α) (divisor index : Nat) : List (Option α) :=
  let rwidth := ceiling g.cols divisor
  let rheight := ceiling g.rows divisor
  let start := nrantStart g index divisor
  (List.range (rwidth * rheight)).map (fun current =>
    let row_offset := current / rwidth
    let col_offset := current % rwidth
    if g.cols ≤ col_offset + start % g.cols then none
    else Grid.getNat g (start + row_offset * g.cols + col_offset))

/-- grid.rs row_number. -/
def rowNumber (g : Grid α) (index : Nat) : Nat := index / g.cols

/-- grid.rs col_number. -/
def colNumber (g : Grid α) (index : Nat) : Nat := index % g.cols

/-- grid.rs row_start_index. -/
def rowStartIndex (g : Grid α) (index : Nat) : Nat := rowNumber g index * g.cols

/-- grid.rs col_start_index. -/
def colStartIndex (g : Grid α) (index : Nat) : Nat := colNumber g index

/-- row_iters.rs RowIter::new: the slice items[row_start .. row_start + cols]
as the sequence the iterator yields. -/
def rowIterListFrom (g : Grid α) (index : Nat) : List α :=
  (g.items.drop (rowStartIndex g index)).take g.cols

/-- Iterator::step_by over a list: keep the first element of every chunk of
k elements. -/
def stepByList (k : Nat) : List α → List α
  | [] => []
  | a :: rest => a :: stepByList k (rest.drop (k - 1))
termination_by l => l.length
decreasing_by
  simp only [List.length_drop, List.length_cons]
  omega

/-- col_iters.rs ColIter::new: skip to the column start, then stride by
cols. -/
def colIterListFrom (g : Grid α) (index : Nat) : List α :=
  stepByList g.cols (g.items.drop (colStartIndex g index))

/-- Grid::row_iter for an (isize, isize) index: a failed resolution yields
the noop (empty) iterator. -/
def rowIterPair (g : Grid α) (p : Int × Int) : List α :=
  match gridIndexPair g p with
  | Except.ok i => rowIterListFrom g i
  | Except.error _ => []

/-- Grid::row_iter for a usize index. -/
def rowIterNat (g : Grid α) (n : Nat) : List α :=
  match gridIndexNat g n with
  | Except.ok i => rowIterListFrom g i
  | Except.error _ => []

/-- Grid::row_iter for a Coordinates index. -/
def rowIterCoordinates (g : Grid α) (c : Coordinates) : List α :=
  match gridIndexCoordinates g c with
  | Except.ok i => rowIterListFrom g i
  | Except.error _ => []

/-- Grid::col_iter for an (isize, isize) index. -/
def colIterPair (g : Grid α) (p : Int × Int) : List α :=
  match gridIndexPair g p with
  | Except.ok i => colIterListFrom g i
  | Except.error _ => []

/-- Grid::col_iter for a Coordinates index. -/
def colIterCoordinates (g : Grid α) (c : Coordinates) : List α :=
  match gridIndexCoordinates g c with
  | Except.ok i => colIterListFrom g i
  | Except.error _ => []

/-- Constant i32::MAX, the excessive-size threshold. -/
def i32Max : Nat := 2147483647

/-- usize::checked_mul on 64-bit targets. -/
def checkedMulUsize (a b : Nat) : Option Nat :=
  if a * b < 2 ^ 64 then some (a * b) else none

/-- intogrid.rs row_col_length_check. -/
def rowColLengthCheck (rows cols : Nat) : Except GridError Nat :=
  if i32Max ≤ rows || i32Max ≤ cols then Except.error GridError.ExcessiveSize
  else
    match checkedMulUsize rows cols with
    | none => Except.error GridError.ExcessiveSize
    | some size =>
      if i32Max ≤ size then Except.error GridError.ExcessiveSize
      else Except.ok size

/-- Grid::create. -/
def Grid.create (items : List α) (rows cols : Nat) (options : Option GridOptions) :
    Grid α :=
  { items := items, rows := rows, cols := cols
    options := options.getD GridOptions.default }

/-- The row-appending loop of the Vec<Vec<T>> IntoGrid impl: concatenates
the rows, failing at the first row whose length differs from cols. -/
def appendRows (cols : Nat) : List (List α) → Except GridError (List α)
  | [] => Except.ok []
  | row :: rest =>
    if row.length ≠ cols then Except.error GridError.RowSizeMismatch
    else
      match appendRows cols rest with
      | Except.ok tail => Except.ok (row ++ tail)
      | Except.error e => Except.error e

/-- IntoGrid for Vec<Vec<T>>. -/
def intoGrid2d (v : List (List α)) : Except GridError (Grid α) :=
  let rows := v.length
  match v.head? with
  | none => Except.error GridError.InvalidSize
  | some first =>
    let cols := first.length
    match rowColLengthCheck rows cols with
    | Except.error e => Except.error e
    | Except.ok _total =>
      if rows = 0 || cols = 0 then Except.error GridError.InvalidSize
      else
        match appendRows cols v with
        | Except.ok grid => Except.ok (Grid.create grid rows cols none)
        | Except.error e => Except.error e

/-- The pattern vector repeated n times, as built by the _convert1d loop. -/
def repeatList (p : List α) : Nat → List α
  | 0 => []
  | Nat.succ m => p ++ repeatList p m

/-- intogrid.rs _convert1d: IntoGrid for a (pattern, row count) tuple.
Note the argument order of the Grid::create call in the source: the
pattern length is passed as rows and the row count as cols. -/
def intoGridPattern (p : List α) (n : Nat) : Except GridError (Grid α) :=
  match rowColLengthCheck n p.length with
  | Except.error e => Except.error e
  | Except.ok _total =>
    let cols := p.length
    if cols = 0 || n = 0 then Except.error GridError.InvalidSize
    else Except.ok (Grid.create (repeatList p n) cols n none)

/-- IntoGrid for a (columns, rows, fill value) tuple. -/
def intoGridFill (cols rows : Nat) (t : α) : Except GridError (Grid α) :=
  match rowColLengthCheck cols rows with
  | Except.error e => Except.error e
  | Except.ok total =>
    Except.ok
      { items := List.replicate total t, rows := rows, cols := cols
        options := GridOptions.default }

/-- Grid::new for a 2-D vec input: converts, then installs the caller's
options (or the defaults). -/
def gridNew2d (v : List (List α)) (options : Option GridOptions) :
    Except GridError (Grid α) :=
  match intoGrid2d v with
  | Except.error e => Except.error e
  | Except.ok g => Except.ok { g with options := options.getD GridOptions.default }

/-- Grid::new_from_1d. -/
def newFrom1d (vec : List α) (columns rows : Nat) (options : Option GridOptions) :
    Except GridError (Grid α) :=
  match checkedMulUsize rows columns with
  | none => Except.error GridError.ExcessiveSize
  | some prod =>
    if vec.length ≠ prod then Except.error GridError.InvalidSize
    else
      Except.ok
        { items := vec, rows := rows, cols := columns
          options := options.getD GridOptions.default }

/-- The 5 × 5 grid holding 0..24 row-major with the default options. -/
def gridFive : Grid Nat :=
  { items := List.range 25, rows := 5, cols := 5, options := GridOptions.default }

/-- Center-origin options with inverted_y turned off. -/
def centerOptions : GridOptions :=
  { origin := Origin.Center, inverted_y := false, neighbor_ybased := true
    wrap_x := false, wrap_y := false }

/-- A 1 × 2 grid with Center origin (even column count). -/
def centerEvenGrid : Grid Nat :=
  { items := [0, 1], rows := 1, cols := 2, options := centerOptions }

/-- A 2 × 3 grid with both wrap flags on. -/
def wrapGrid : Grid Nat :=
  { items := List.range 6, rows := 2, cols := 3
    options := { origin := Origin.UpperLeft, inverted_y := true
                 neighbor_ybased := true, wrap_x := true, wrap_y := true } }

/-- A 3 × 1 grid holding 10, 11, 12 with the default options. -/
def threeByOneGrid : Grid Nat :=
  { items := [10, 11, 12], rows := 3, cols := 1, options := GridOptions.default }

/-! Helper lemmas shared by the claim theorems. -/

theorem invertY_invertY (g : Grid α) (y : Int) : invertY g (invertY g y) = y := by
  unfold invertY
  split <;> simp

theorem adjustToOrigin_adjustFromOrigin (g : Grid α) (x y : Int) :
    adjustToOrigin g (adjustFromOrigin g x y).1 (adjustFromOrigin g x y).2 = (x, y) := by
  cases ho : g.origin <;>
    simp only [adjustToOrigin, adjustFromOrigin, ho, convertUpperLeft, convertUpperRight,
      convertCenter, convertLowerLeft, convertLowerRight, Prod.mk.injEq, true_and,
      and_true, eq_self_iff_true] <;>
    omega

theorem adjustFromOrigin_bounds (g : Grid α) (x y : Int)
    (hr : 1 ≤ g.rows) (hc : 1 ≤ g.cols)
    (hcenter : g.origin = Origin.Center → g.rows % 2 = 1 ∧ g.cols % 2 = 1)
    (hb : boundsCheck g x y = true) :
    0 ≤ (adjustFromOrigin g x y).1 ∧ (adjustFromOrigin g x y).1 < (g.cols : Int) ∧
    0 ≤ (adjustFromOrigin g x y).2 ∧ (adjustFromOrigin g x y).2 < (g.rows : Int) := by
  cases ho : g.origin <;>
    simp only [boundsCheck, ho, Bool.and_eq_true, decide_eq_true_eq] at hb <;>
    simp only [adjustFromOrigin, ho, convertUpperLeft, convertUpperRight, convertCenter,
      convertLowerLeft, convertLowerRight]
  case UpperLeft => omega
  case UpperRight => omega
  case Center =>
    obtain ⟨h1, h2⟩ := hcenter ho
    omega
  case LowerLeft => omega
  case LowerRight => omega

theorem gridIndexPair_eq (g : Grid α) (x y : Int) (i : Nat)
    (h : gridIndexPair g (x, y) = Except.ok i) :
    boundsCheck g x (invertY g y) = true ∧ i = xyToIndex g x (invertY g y) := by
  unfold gridIndexPair at h
  by_cases hb : boundsCheck g x (invertY g y) = true
  · rw [if_pos hb] at h
    simp only [Except.ok.injEq] at h
    exact ⟨hb, h.symm⟩
  · rw [if_neg hb] at h
    exact absurd h (by simp)

theorem gridIndexCoordinates_eq_pair (g : Grid α) (c : Coordinates) :
    gridIndexCoordinates g c = gridIndexPair g (c.x, c.y) := rfl

theorem index_split (cy cx cols : Nat) (h : cx < cols) :
    (cy * cols + cx) % cols = cx ∧ (cy * cols + cx) / cols = cy := by
  have hcols : 0 < cols := by omega
  have e : cy * cols + cx = cols * cy + cx := by ring
  constructor
  · rw [e, Nat.mul_add_mod, Nat.mod_eq_of_lt h]
  · rw [e, Nat.mul_add_div hcols, Nat.div_eq_of_lt h, Nat.add_zero]

theorem mul_add_lt_mul {a m b c : Nat} (h1 : a < m) (h2 : b < c) :
    a * c + b < m * c := by
  have h3 : (a + 1) * c = a * c + c := by ring
  have h4 : (a + 1) * c ≤ m * c := Nat.mul_le_mul_right c h1
  omega

theorem xyToIndex_lt (g : Grid α) (x y : Int)
    (hr : 1 ≤ g.rows) (hc : 1 ≤ g.cols)
    (hcenter : g.origin = Origin.Center → g.rows % 2 = 1 ∧ g.cols % 2 = 1)
    (hb : boundsCheck g x y = true) :
    xyToIndex g x y < g.rows * g.cols := by
  obtain ⟨b1, b2, b3, b4⟩ := adjustFromOrigin_bounds g x y hr hc hcenter hb
  unfold xyToIndex
  have h1 : (adjustFromOrigin g x y).1.toNat < g.cols := by omega
  have h2 : (adjustFromOrigin g x y).2.toNat < g.rows := by omega
  exact mul_add_lt_mul h2 h1

/-- C1 (amended): for every grid with at least one row and column, any
options whose Center origin (when used) has odd row and column counts, and
any logical (x, y) that grid_index resolves to offset i, Index::output
reconstructs exactly (x, y) from i. -/
theorem roundtrip_with_odd_center (g : Grid α) (x y : Int) (i : Nat)
    (hr : 1 ≤ g.rows) (hc : 1 ≤ g.cols)
    (hcenter : g.origin = Origin.Center → g.rows % 2 = 1 ∧ g.cols % 2 = 1)
    (h : gridIndexPair g (x, y) = Except.ok i) :
    outputPair g i = (x, y) := by
  obtain ⟨hb, hi⟩ := gridIndexPair_eq g x y i h
  obtain ⟨b1, b2, b3, b4⟩ := adjustFromOrigin_bounds g x (invertY g y) hr hc hcenter hb
  have hx1 : (((adjustFromOrigin g x (invertY g y)).1.toNat : Nat) : Int) =
      (adjustFromOrigin g x (invertY g y)).1 := Int.toNat_of_nonneg b1
  have hx2 : (((adjustFromOrigin g x (invertY g y)).2.toNat : Nat) : Int) =
      (adjustFromOrigin g x (invertY g y)).2 := Int.toNat_of_nonneg b3
  have hcx : (adjustFromOrigin g x (invertY g y)).1.toNat < g.cols := by omega
  obtain ⟨hmod, hdiv⟩ := index_split (adjustFromOrigin g x (invertY g y)).2.toNat
    (adjustFromOrigin g x (invertY g y)).1.toNat g.cols hcx
  have hi' : i = (adjustFromOrigin g x (invertY g y)).2.toNat * g.cols +
      (adjustFromOrigin g x (invertY g y)).1.toNat := hi
  have hto := adjustToOrigin_adjustFromOrigin g x (invertY g y)
  unfold outputPair
  rw [hi', hmod, hdiv, hx1, hx2]
  simp [hto, invertY_invertY]

/-- C1 witness: the round-trip theorem applied to the 5 × 5 default grid at
the coordinate (2, 1), which resolves to offset 7. -/
theorem roundtrip_with_odd_center_witness : outputPair gridFive 7 = (2, 1) :=
  roundtrip_with_odd_center gridFive 2 1 7 (by decide) (by decide) (by decide) (by decide)

/-- C1 counterexample: on a 1 × 2 grid with Center origin (even column
count, which no constructor rejects), the coordinate (1, 0) resolves
successfully to offset 2, yet Index::output maps 2 back to (-1, -1). -/
theorem roundtrip_counterexample :
    gridIndexPair centerEvenGrid (1, 0) = Except.ok 2 ∧
    outputPair centerEvenGrid 2 ≠ (1, 0) := by decide
/-- C3 (amended): with at least one row and column, and odd dimensions
whenever the origin is Center, every offset returned successfully by
grid_index — for the usize, (isize, isize) and Coordinates representations
alike — is strictly below rows * cols, so direct storage access at it stays
in range. -/
theorem resolution_in_bounds (g : Grid α)
    (hsize : g.items.length = g.rows * g.cols) (hr : 1 ≤ g.rows) (hc : 1 ≤ g.cols)
    (hcenter : g.origin = Origin.Center → g.rows % 2 = 1 ∧ g.cols % 2 = 1) :
    (∀ n i, gridIndexNat g n = Except.ok i → i < g.rows * g.cols) ∧
    (∀ x y i, gridIndexPair g (x, y) = Except.ok i → i < g.rows * g.cols) ∧
    (∀ c i, gridIndexCoordinates g c = Except.ok i → i < g.rows * g.cols) := by
  have hpair : ∀ x y i, gridIndexPair g (x, y) = Except.ok i → i < g.rows * g.cols := by
    intro x y i h
    obtain ⟨hb, hi⟩ := gridIndexPair_eq g x y i h
    exact hi ▸ xyToIndex_lt g x (invertY g y) hr hc hcenter hb
  refine ⟨?_, hpair, ?_⟩
  · intro n i h
    unfold gridIndexNat at h
    by_cases hn : n < g.size
    · rw [if_pos hn] at h
      simp only [Except.ok.injEq] at h
      have : n < g.rows * g.cols := by
        unfold Grid.size at hn
        omega
      omega
    · rw [if_neg hn] at h
      exact absurd h (by simp)
  · intro c i h
    rw [gridIndexCoordinates_eq_pair] at h
    exact hpair c.x c.y i h

/-- C3 witness: the bound theorem applied to the 5 × 5 default grid, at the
coordinate (2, 1) which resolves to offset 7. -/
theorem resolution_in_bounds_witness : 7 < gridFive.rows * gridFive.cols :=
  (resolution_in_bounds gridFive (by decide) (by decide) (by decide)
    (by decide)).2.1 2 1 7 (by decide)

/-- C3 counterexample: on the 1 × 2 Center-origin grid the coordinate
(1, 0) resolves successfully to offset 2, which is not below
rows * cols = 2, so the storage access items[2] is out of range. -/
theorem resolution_bound_counterexample :
    gridIndexPair centerEvenGrid (1, 0) = Except.ok 2 ∧
    ¬2 < centerEvenGrid.rows * centerEvenGrid.cols := by decide

/-- C2 (amended): on the 5 × 5 grid of 0..24 with the default options
(UpperLeft origin, inverted_y = true, neighbor_ybased = true, no wrap) the
cell at row 1, column 2 is addressed as (2, 1): get((2, 1)) is 7,
get_up((2, 1)) is 12 (up follows increasing logical y, i.e. the next
storage row), and get_down((2, 1)) is 2. -/
theorem concrete_default_scenario :
    Grid.getPair gridFive (2, 1) = some 7 ∧
    Grid.getUpPair gridFive (2, 1) = some 12 ∧
    Grid.getDownPair gridFive (2, 1) = some 2 := by decide

/-- C2 counterexample: under the default options (inverted_y = true) the
coordinate (2, -1) does not resolve at all — bounds_check requires a
nonnegative post-inversion y — so get, get_up and get_down all return
absent rather than 7, 2 and 12. -/
theorem concrete_default_scenario_counterexample :
    Grid.getPair gridFive (2, -1) = none ∧
    Grid.getUpPair gridFive (2, -1) = none ∧
    Grid.getDownPair gridFive (2, -1) = none := by decide

/-- C4 (amended): Grid::new applies no parity validation for the Center
origin: whether construction succeeds does not depend on the chosen
options at all, and in particular a 2 × 2 grid (even rows and columns)
with Center origin is constructed successfully instead of failing with
InvalidSize. -/
theorem construction_ignores_origin_parity (α : Type) :
    (∀ (v : List (List α)) (opts : GridOptions),
      (gridNew2d v (some opts)).isOk = (gridNew2d v none).isOk) ∧
    gridNew2d [[1, 2], [3, 4]] (some centerOptions) =
      Except.ok { items := [1, 2, 3, 4], rows := 2, cols := 2
                  options := centerOptions } := by
  constructor
  · intro v opts
    unfold gridNew2d
    cases intoGrid2d v <;> rfl
  · decide

/-- C4 counterexample: constructing a 2 × 2 grid with Center origin (both
dimensions even) succeeds, contradicting the claimed InvalidSize failure. -/
theorem center_even_construction_counterexample :
    gridNew2d [[1, 2], [3, 4]] (some centerOptions) =
      Except.ok { items := [1, 2, 3, 4], rows := 2, cols := 2
                  options := centerOptions } := by decide
/-- C6 (failing input evaluated): on a 3 × 1 grid with divisor 2 the
offsets 0 and 2 lie in different regions (ids 0 and 2), yet the region
iterations started from them both yield the cell at offset 1 (value 11):
nrant_start computes the vertical region offset with floor division
rows / divisor while nrant and the iterator extent use
ceiling(rows, divisor), so regions overlap once rows is not divisible by
the divisor. -/
theorem nrant_iter_overlap_bug :
    nrantNat threeByOneGrid 0 2 = Except.ok 0 ∧
    nrantNat threeByOneGrid 2 2 = Except.ok 2 ∧
    nrantIterSlots threeByOneGrid 2 0 = [some 10, some 11] ∧
    nrantIterSlots threeByOneGrid 2 2 = [some 11, some 12] := by decide

/-- C10 (failing input evaluated): converting the pattern [1, 2, 3] with
row count 4 succeeds with the pattern repeated 4 times, but the resulting
grid reports rows = 3 (the pattern length) and cols = 4 (the row count):
_convert1d passes cols where Grid::create expects rows and vice versa,
contradicting the constructor's own documented shape. -/
theorem pattern_grid_swapped_dims :
    intoGridPattern [1, 2, 3] 4 =
      Except.ok
        { items := [1, 2, 3, 1, 2, 3, 1, 2, 3, 1, 2, 3], rows := 3, cols := 4
          options := GridOptions.default } := by decide
theorem ceiling_eq (a d : Nat) (ha : 1 ≤ a) (hd : 1 ≤ d) :
    ceiling a d = (a - 1) / d + 1 := by
  unfold ceiling
  have e : a + d - 1 = (a - 1) + d := by omega
  rw [e, Nat.add_div_right _ (by omega)]

theorem ceiling_pos (a d : Nat) (ha : 1 ≤ a) (hd : 1 ≤ d) : 0 < ceiling a d := by
  rw [ceiling_eq a d ha hd]
  exact Nat.succ_pos _

theorem le_mul_ceiling (a d : Nat) (hd : 1 ≤ d) : a ≤ d * ceiling a d := by
  rcases Nat.eq_zero_or_pos a with h0 | h1
  · subst h0
    exact Nat.zero_le _
  · obtain ⟨b, rfl⟩ : ∃ b, a = b + 1 := ⟨a - 1, by omega⟩
    rw [ceiling_eq _ d (by omega) hd]
    simp only [Nat.add_sub_cancel]
    have h2 := Nat.div_add_mod b d
    have h3 : b % d < d := Nat.mod_lt b (by omega)
    have h4 : d * (b / d + 1) = d * (b / d) + d := by ring
    omega

theorem nrantNat_eq (g : Grid α) (i d : Nat) :
    nrantNat g i d =
      if d < 1 ∨ max g.rows g.cols < d then Except.error GridError.InvalidDivisionSize
      else if i < g.size then
        Except.ok (i / g.cols / ceiling g.rows d * d + i % g.cols / ceiling g.cols d)
      else Except.error GridError.IndexOutOfBounds := by
  unfold nrantNat gridIndexNat
  by_cases h1 : d < 1 ∨ max g.rows g.cols < d
  · rw [if_pos h1]
    have hb : (decide (d < 1) || decide (d > max g.rows g.cols)) = true := by
      simp only [Bool.or_eq_true, decide_eq_true_eq, gt_iff_lt]
      exact h1
    rw [if_pos hb]
  · rw [if_neg h1]
    have hb : (decide (d < 1) || decide (d > max g.rows g.cols)) = false := by
      simp only [Bool.or_eq_false_iff, decide_eq_false_iff_not, gt_iff_lt]
      omega
    have hb' : ¬(decide (d < 1) || decide (d > max g.rows g.cols)) = true := by
      rw [hb]
      exact Bool.false_ne_true
    rw [if_neg hb']
    by_cases h2 : i < g.size
    · rw [if_pos h2, if_pos h2]
      rfl
    · rw [if_neg h2, if_neg h2]
      rfl

/-- C5: nrant returns InvalidDivisionSize exactly when the divisor is
below 1 or above max(rows, cols); otherwise, for every in-bounds offset i
it returns (i / cols / ceil(rows/d)) * d + (i % cols) / ceil(cols/d), and
that region id is below d * d. -/
theorem nrant_formula_and_range (g : Grid α) (i d : Nat)
    (hsize : g.items.length = g.rows * g.cols) (hr : 1 ≤ g.rows) (hc : 1 ≤ g.cols) :
    (nrantNat g i d = Except.error GridError.InvalidDivisionSize ↔
      d < 1 ∨ max g.rows g.cols < d) ∧
    (1 ≤ d → d ≤ max g.rows g.cols → i < g.rows * g.cols →
      nrantNat g i d =
        Except.ok (i / g.cols / ceiling g.rows d * d + i % g.cols / ceiling g.cols d) ∧
      i / g.cols / ceiling g.rows d * d + i % g.cols / ceiling g.cols d < d * d) := by
  rw [nrantNat_eq]
  constructor
  · constructor
    · intro h
      by_contra hcon
      rw [if_neg hcon] at h
      by_cases hi : i < g.size
      · rw [if_pos hi] at h
        exact absurd h (by simp)
      · rw [if_neg hi] at h
        simp only [Except.error.injEq] at h
        exact absurd h (by simp)
    · intro h
      rw [if_pos h]
  · intro hd1 hd2 hi
    have hcond : ¬(d < 1 ∨ max g.rows g.cols < d) := by omega
    have hsz : i < g.size := by
      unfold Grid.size
      omega
    rw [if_neg hcond, if_pos hsz]
    refine ⟨rfl, ?_⟩
    have hrh := ceiling_pos g.rows d hr hd1
    have hrw := ceiling_pos g.cols d hc hd1
    have h5 : i / g.cols < g.rows := (Nat.div_lt_iff_lt_mul (by omega)).mpr hi
    have h6 := le_mul_ceiling g.rows d hd1
    have h7 : i / g.cols / ceiling g.rows d < d := by
      rw [Nat.div_lt_iff_lt_mul hrh]
      omega
    have h8 : i % g.cols < g.cols := Nat.mod_lt i (by omega)
    have h9 := le_mul_ceiling g.cols d hd1
    have h10 : i % g.cols / ceiling g.cols d < d := by
      rw [Nat.div_lt_iff_lt_mul hrw]
      omega
    exact mul_add_lt_mul h7 h10

/-- C5 witness: the nrant theorem applied to the 5 × 5 default grid at
offset 7 with divisor 2: the region id is 2 and lies below 4. -/
theorem nrant_formula_and_range_witness :
    nrantNat gridFive 7 2 =
      Except.ok (7 / gridFive.cols / ceiling gridFive.rows 2 * 2 +
        7 % gridFive.cols / ceiling gridFive.cols 2) ∧
    7 / gridFive.cols / ceiling gridFive.rows 2 * 2 +
      7 % gridFive.cols / ceiling gridFive.cols 2 < 2 * 2 :=
  (nrant_formula_and_range gridFive 7 2 (by decide) (by decide) (by decide)).2
    (by decide) (by decide) (by decide)

theorem gridIndexNat_ok (g : Grid α) (n : Nat) (h : n < g.size) :
    gridIndexNat g n = Except.ok n := by
  unfold gridIndexNat
  rw [if_pos h]

theorem rightIdxNat_in (g : Grid α) (n : Nat) (h : n < g.size) :
    rightIdxNat g n =
      if n + 1 == g.size || (n + 1) % g.cols == 0 then
        if g.options.wrap_x then Except.ok (n + 1 - g.cols)
        else Except.error GridError.IndexOutOfBounds
      else Except.ok (n + 1) := by
  unfold rightIdxNat
  rw [gridIndexNat_ok g n h]

theorem leftIdxNat_in (g : Grid α) (n : Nat) (h : n < g.size) :
    leftIdxNat g n =
      if n == 0 || n % g.cols == 0 then
        if g.options.wrap_x then Except.ok (n + g.cols - 1)
        else Except.error GridError.IndexOutOfBounds
      else Except.ok (n - 1) := by
  unfold leftIdxNat
  rw [gridIndexNat_ok g n h]

theorem actualUpInd_top (g : Grid α) (c : Nat) (h : c < g.cols) :
    actualUpInd g c =
      if g.options.wrap_y then Except.ok (c + g.size - g.cols)
      else Except.error GridError.IndexOutOfBounds := by
  unfold actualUpInd
  rw [if_neg (show ¬g.cols ≤ c by omega)]

/-- C8: on any grid (with the storage invariant), moving right from the
last column of a row wraps to the first cell of that row when wrap_x is
set and is absent otherwise; moving left from the first column wraps to
the last cell of the row; the raw vertical step up from the top row wraps
to the same column of the bottom row when wrap_y is set (absent
otherwise), and the step down from the bottom row wraps to the same
column of the top row. -/
theorem wrap_boundary_moves (g : Grid α)
    (hsize : g.items.length = g.rows * g.cols) (hr : 1 ≤ g.rows) (hc : 1 ≤ g.cols) :
    (g.options.wrap_x = true → ∀ r, r < g.rows →
      rightIdxNat g (r * g.cols + (g.cols - 1)) = Except.ok (r * g.cols) ∧
      leftIdxNat g (r * g.cols) = Except.ok (r * g.cols + (g.cols - 1))) ∧
    (g.options.wrap_y = true → ∀ c, c < g.cols →
      actualUpInd g c = Except.ok ((g.rows - 1) * g.cols + c) ∧
      actualDownInd g ((g.rows - 1) * g.cols + c) = Except.ok c) ∧
    (g.options.wrap_x = false → ∀ r, r < g.rows →
      rightIdxNat g (r * g.cols + (g.cols - 1)) =
        Except.error GridError.IndexOutOfBounds ∧
      leftIdxNat g (r * g.cols) = Except.error GridError.IndexOutOfBounds) ∧
    (g.options.wrap_y = false → ∀ c, c < g.cols →
      actualUpInd g c = Except.error GridError.IndexOutOfBounds ∧
      actualDownInd g ((g.rows - 1) * g.cols + c) =
        Except.error GridError.IndexOutOfBounds) := by
  have hs : g.size = g.rows * g.cols := hsize
  have hright : ∀ r, r < g.rows →
      rightIdxNat g (r * g.cols + (g.cols - 1)) =
        if g.options.wrap_x then Except.ok (r * g.cols)
        else Except.error GridError.IndexOutOfBounds := by
    intro r hrr
    have hA : r * g.cols + (g.cols - 1) < g.size := by
      rw [hs]
      exact mul_add_lt_mul hrr (by omega)
    have e : (r + 1) * g.cols = r * g.cols + g.cols := by ring
    have hn1 : r * g.cols + (g.cols - 1) + 1 = (r + 1) * g.cols := by omega
    have hcond : (r * g.cols + (g.cols - 1) + 1 == g.size ||
        (r * g.cols + (g.cols - 1) + 1) % g.cols == 0) = true := by
      simp only [Bool.or_eq_true, beq_iff_eq]
      right
      rw [hn1]
      exact Nat.mul_mod_left _ _
    rw [rightIdxNat_in g _ hA, if_pos hcond]
    by_cases hw : g.options.wrap_x = true
    · rw [if_pos hw]
      rw [if_pos hw]
      simp only [Except.ok.injEq]
      omega
    · rw [if_neg hw]
      rw [if_neg hw]
  have hleft : ∀ r, r < g.rows →
      leftIdxNat g (r * g.cols) =
        if g.options.wrap_x then Except.ok (r * g.cols + (g.cols - 1))
        else Except.error GridError.IndexOutOfBounds := by
    intro r hrr
    have hA : r * g.cols < g.size := by
      rw [hs]
      have := mul_add_lt_mul hrr (show 0 < g.cols by omega)
      omega
    have hcond : (r * g.cols == 0 || r * g.cols % g.cols == 0) = true := by
      simp only [Bool.or_eq_true, beq_iff_eq]
      right
      exact Nat.mul_mod_left _ _
    rw [leftIdxNat_in g _ hA, if_pos hcond]
    by_cases hw : g.options.wrap_x = true
    · rw [if_pos hw]
      rw [if_pos hw]
      simp only [Except.ok.injEq]
      omega
    · rw [if_neg hw]
      rw [if_neg hw]
  have hup : ∀ c, c < g.cols →
      actualUpInd g c =
        if g.options.wrap_y then Except.ok ((g.rows - 1) * g.cols + c)
        else Except.error GridError.IndexOutOfBounds := by
    intro c hcc
    have e1 : (g.rows - 1) * g.cols = g.rows * g.cols - 1 * g.cols := Nat.sub_mul _ _ _
    have e2 : 1 * g.cols ≤ g.rows * g.cols := Nat.mul_le_mul_right _ hr
    rw [actualUpInd_top g c hcc, hs]
    by_cases hw : g.options.wrap_y = true
    · rw [if_pos hw]
      rw [if_pos hw]
      simp only [Except.ok.injEq]
      omega
    · rw [if_neg hw]
      rw [if_neg hw]
  have hdown : ∀ c, c < g.cols →
      actualDownInd g ((g.rows - 1) * g.cols + c) =
        if g.options.wrap_y then Except.ok c
        else Except.error GridError.IndexOutOfBounds := by
    intro c hcc
    have e1 : (g.rows - 1) * g.cols = g.rows * g.cols - 1 * g.cols := Nat.sub_mul _ _ _
    have e2 : 1 * g.cols ≤ g.rows * g.cols := Nat.mul_le_mul_right _ hr
    simp only [actualDownInd]
    rw [hs]
    rw [if_neg (show ¬(g.rows - 1) * g.cols + c + g.cols < g.rows * g.cols by omega)]
    by_cases hw : g.options.wrap_y = true
    · rw [if_pos hw]
      rw [if_pos hw]
      simp only [Except.ok.injEq]
      omega
    · rw [if_neg hw]
      rw [if_neg hw]
  refine ⟨?_, ?_, ?_, ?_⟩
  · intro hw r hrr
    exact ⟨by rw [hright r hrr, if_pos hw], by rw [hleft r hrr, if_pos hw]⟩
  · intro hw c hcc
    exact ⟨by rw [hup c hcc, if_pos hw], by rw [hdown c hcc, if_pos hw]⟩
  · intro hw r hrr
    exact ⟨by rw [hright r hrr, if_neg (by simp [hw])],
      by rw [hleft r hrr, if_neg (by simp [hw])]⟩
  · intro hw c hcc
    exact ⟨by rw [hup c hcc, if_neg (by simp [hw])],
      by rw [hdown c hcc, if_neg (by simp [hw])]⟩

/-- C8 witness: the wrap theorem applied to a 2 × 3 fully wrapped grid
(row 0, column 1) and to the unwrapped 5 × 5 default grid. -/
theorem wrap_boundary_moves_witness :
    rightIdxNat wrapGrid 2 = Except.ok 0 ∧
    leftIdxNat wrapGrid 0 = Except.ok 2 ∧
    actualUpInd wrapGrid 1 = Except.ok 4 ∧
    actualDownInd wrapGrid 4 = Except.ok 1 ∧
    rightIdxNat gridFive 4 = Except.error GridError.IndexOutOfBounds ∧
    actualUpInd gridFive 3 = Except.error GridError.IndexOutOfBounds := by
  have h1 := wrap_boundary_moves wrapGrid (by decide) (by decide) (by decide)
  have h2 := wrap_boundary_moves gridFive (by decide) (by decide) (by decide)
  exact ⟨(h1.1 (by decide) 0 (by decide)).1, (h1.1 (by decide) 0 (by decide)).2,
    (h1.2.1 (by decide) 1 (by decide)).1, (h1.2.1 (by decide) 1 (by decide)).2,
    (h2.2.2.1 (by decide) 0 (by decide)).1, (h2.2.2.2 (by decide) 3 (by decide)).1⟩

/-- C9: for any starting coordinate that fails to resolve — as an
(isize, isize) pair, a Coordinates record, or a usize offset — row_iter
and col_iter return the noop iterator that yields nothing (never an
error); for any in-bounds offset, row_iter yields exactly the cols cells
of that offset's storage row, in storage order. -/
theorem iter_oob_empty_and_row_content (g : Grid α)
    (hsize : g.items.length = g.rows * g.cols) (hc : 1 ≤ g.cols) :
    (∀ p : Int × Int, (gridIndexPair g p).isOk = false →
      rowIterPair g p = [] ∧ colIterPair g p = []) ∧
    (∀ c : Coordinates, (gridIndexCoordinates g c).isOk = false →
      rowIterCoordinates g c = [] ∧ colIterCoordinates g c = []) ∧
    (∀ n : Nat, (gridIndexNat g n).isOk = false → rowIterNat g n = []) ∧
    (∀ i : Nat, i < g.size →
      (rowIterNat g i).length = g.cols ∧
      ∀ k, k < g.cols →
        (rowIterNat g i)[k]? = g.items[i / g.cols * g.cols + k]?) := by
  refine ⟨?_, ?_, ?_, ?_⟩
  · intro p hp
    cases h : gridIndexPair g p with
    | ok v =>
      rw [h] at hp
      exact absurd hp (by simp [Except.isOk, Except.toBool])
    | error e =>
      constructor
      · unfold rowIterPair
        rw [h]
      · unfold colIterPair
        rw [h]
  · intro c hp
    cases h : gridIndexCoordinates g c with
    | ok v =>
      rw [h] at hp
      exact absurd hp (by simp [Except.isOk, Except.toBool])
    | error e =>
      constructor
      · unfold rowIterCoordinates
        rw [h]
      · unfold colIterCoordinates
        rw [h]
  · intro n hp
    cases h : gridIndexNat g n with
    | ok v =>
      rw [h] at hp
      exact absurd hp (by simp [Except.isOk, Except.toBool])
    | error e =>
      unfold rowIterNat
      rw [h]
  · intro i hi
    have hR : rowIterNat g i = rowIterListFrom g i := by
      unfold rowIterNat
      rw [gridIndexNat_ok g i hi]
    have hi' : i < g.rows * g.cols := by
      unfold Grid.size at hi
      omega
    have hdivlt : i / g.cols < g.rows := (Nat.div_lt_iff_lt_mul (by omega)).mpr hi'
    have hle : i / g.cols * g.cols + g.cols ≤ g.rows * g.cols := by
      have e : (i / g.cols + 1) * g.cols = i / g.cols * g.cols + g.cols := by ring
      have h2 : (i / g.cols + 1) * g.cols ≤ g.rows * g.cols :=
        Nat.mul_le_mul_right _ hdivlt
      omega
    rw [hR]
    unfold rowIterListFrom rowStartIndex rowNumber
    constructor
    · rw [List.length_take, List.length_drop, hsize]
      omega
    · intro k hk
      rw [List.getElem?_take_of_lt hk, List.getElem?_drop]

/-- C9 witness: on the 5 × 5 default grid, the out-of-bounds start (2, -1)
gives empty row and column iterators, while the in-bounds offset 7 gives a
full row of 5 cells whose third element is storage cell 7. -/
theorem iter_oob_empty_and_row_content_witness :
    rowIterPair gridFive (2, -1) = [] ∧ colIterPair gridFive (2, -1) = [] ∧
    (rowIterNat gridFive 7).length = gridFive.cols ∧
    (rowIterNat gridFive 7)[2]? = gridFive.items[7]? := by
  have h := iter_oob_empty_and_row_content gridFive (by decide) (by decide)
  exact ⟨(h.1 (2, -1) (by decide)).1, (h.1 (2, -1) (by decide)).2,
    (h.2.2.2 7 (by decide)).1, (h.2.2.2 7 (by decide)).2 2 (by decide)⟩

theorem rowColLengthCheck_excessive (rows cols : Nat) (h : i32Max ≤ rows * cols) :
    rowColLengthCheck rows cols = Except.error GridError.ExcessiveSize := by
  unfold rowColLengthCheck
  by_cases h1 : i32Max ≤ rows ∨ i32Max ≤ cols
  · have hb : (decide (i32Max ≤ rows) || decide (i32Max ≤ cols)) = true := by
      simp only [Bool.or_eq_true, decide_eq_true_eq]
      exact h1
    rw [if_pos hb]
  · push_neg at h1
    have hb : (decide (i32Max ≤ rows) || decide (i32Max ≤ cols)) = false := by
      simp only [Bool.or_eq_false_iff, decide_eq_false_iff_not, not_le]
      exact h1
    rw [if_neg (by rw [hb]; exact Bool.false_ne_true)]
    have hr' : rows ≤ 2147483646 := by
      have := h1.1
      unfold i32Max at this
      omega
    have hc' : cols ≤ 2147483646 := by
      have := h1.2
      unfold i32Max at this
      omega
    have hm : rows * cols < 2 ^ 64 := by
      calc rows * cols ≤ 2147483646 * 2147483646 := Nat.mul_le_mul hr' hc'
        _ < 2 ^ 64 := by norm_num
    unfold checkedMulUsize
    rw [if_pos hm]
    show (if i32Max ≤ rows * cols then Except.error GridError.ExcessiveSize
      else Except.ok (rows * cols)) = Except.error GridError.ExcessiveSize
    rw [if_pos h]

theorem intoGrid2d_cons (first : List α) (rest : List (List α)) :
    intoGrid2d (first :: rest) =
      match rowColLengthCheck (first :: rest).length first.length with
      | Except.error e => Except.error e
      | Except.ok _total =>
        if (first :: rest).length = 0 || first.length = 0 then
          Except.error GridError.InvalidSize
        else
          match appendRows first.length (first :: rest) with
          | Except.ok grid =>
            Except.ok (Grid.create grid (first :: rest).length first.length none)
          | Except.error e => Except.error e := rfl

/-- C7 (amended): the Vec<Vec<T>> conversion, the replicated-pattern
conversion and the (columns, rows, fill) conversion all fail with
ExcessiveSize whenever the requested total cell count reaches i32::MAX
(which also subsumes any multiplication overflow for them, as each factor
is first checked against the threshold); Grid::new_from_1d, however,
applies no i32::MAX threshold and fails with ExcessiveSize only when the
rows * cols multiplication overflows. -/
theorem excessive_size_guards (v : List (List α)) (p : List α) (n : Nat)
    (cols rows : Nat) (fill : α) (vec : List α) (cols2 rows2 : Nat)
    (opts : Option GridOptions) :
    (i32Max ≤ v.length * (v.head?.getD []).length →
      intoGrid2d v = Except.error GridError.ExcessiveSize) ∧
    (i32Max ≤ n * p.length →
      intoGridPattern p n = Except.error GridError.ExcessiveSize) ∧
    (i32Max ≤ cols * rows →
      intoGridFill cols rows fill = Except.error GridError.ExcessiveSize) ∧
    (2 ^ 64 ≤ rows2 * cols2 →
      newFrom1d vec cols2 rows2 opts = Except.error GridError.ExcessiveSize) := by
  refine ⟨?_, ?_, ?_, ?_⟩
  · intro h
    cases v with
    | nil => simp [i32Max] at h
    | cons first rest =>
      have hh : ((first :: rest).head?.getD []).length = first.length := rfl
      rw [hh] at h
      rw [intoGrid2d_cons, rowColLengthCheck_excessive _ _ h]
  · intro h
    unfold intoGridPattern
    rw [rowColLengthCheck_excessive _ _ h]
  · intro h
    unfold intoGridFill
    rw [rowColLengthCheck_excessive _ _ h]
  · intro h
    unfold newFrom1d checkedMulUsize
    rw [if_neg (show ¬rows2 * cols2 < 2 ^ 64 by omega)]

/-- C7 witness: the guards theorem applied to concrete threshold-sized
inputs for each of the four construction entry points. -/
theorem excessive_size_guards_witness :
    intoGrid2d [List.replicate 2147483647 (0 : Nat)] =
      Except.error GridError.ExcessiveSize ∧
    intoGridPattern (List.replicate 2147483647 (0 : Nat)) 1 =
      Except.error GridError.ExcessiveSize ∧
    intoGridFill 2147483647 1 (0 : Nat) = Except.error GridError.ExcessiveSize ∧
    newFrom1d ([] : List Nat) 4294967296 4294967296 none =
      Except.error GridError.ExcessiveSize := by
  set L := List.replicate 2147483647 (0 : Nat) with hL
  have hlen : L.length = 2147483647 := by
    rw [hL]
    exact List.length_replicate _ _
  have h := excessive_size_guards [L] L 1 2147483647 1 (0 : Nat)
    ([] : List Nat) 4294967296 4294967296 none
  exact ⟨h.1 (by simp [hlen, i32Max]), h.2.1 (by simp [hlen, i32Max]),
    h.2.2.1 (by norm_num [i32Max]), h.2.2.2 (by norm_num)⟩

/-- C7 counterexample: new_from_1d accepts a flat vector of exactly
i32::MAX cells (1 row of 2147483647 columns): the total reaches the
threshold yet construction succeeds, because new_from_1d never checks the
i32::MAX ceiling, only checked_mul overflow. -/
theorem new_from_1d_threshold_counterexample :
    (newFrom1d (List.replicate 2147483647 (0 : Nat)) 2147483647 1 none).isOk = true ∧
    i32Max ≤ 2147483647 * 1 := by
  set L := List.replicate 2147483647 (0 : Nat) with hL
  have hlen : L.length = 2147483647 := by
    rw [hL]
    exact List.length_replicate _ _
  constructor
  · unfold newFrom1d checkedMulUsize
    rw [if_pos (by norm_num : (1 : Nat) * 2147483647 < 2 ^ 64)]
    show (if L.length ≠ 1 * 2147483647 then
        Except.error GridError.InvalidSize
      else Except.ok { items := L, rows := 1, cols := 2147483647
                       options := (none : Option GridOptions).getD GridOptions.default
                       : Grid Nat }).isOk = true
    rw [if_neg (by simp [hlen])]
    rfl
  · norm_num [i32Max]

end Neighborgrid
